import Mathlib

/-!
Shallow embedding of the project-tracking dashboard's aggregation,
classification, caching and write-path code, with theorems checking the
natural-language specification against it.

Sources embedded below:
* `src/unnamed/part_012` — the task-status context (in-memory task list,
  `getProjectProgress`, `getTeamProgress`, `getNotDoneTasksByTeam`, …).
* `src/src/app/page.tsx` — `calculateProjectStatus`.
* `src/src/utils/cache.ts` — `CacheManager` and `CACHE_KEYS`.
* `src/src/services/cachedApiService.ts` — cache invalidation on writes.
* `src/src/app/api/task/route.ts` — the add-task validation loop.
* `src/src/app/api/tasks-status/route.ts` — the merge of fetcher results
  onto stored task rows.
* `src/src/lib/get-general-info-of-list-jira-ticket.ts` — the batched
  issue-tracker fetcher.
* `src/src/lib/external-api.ts` — `parseTaskUrl`.
-/

/-- JS `s.includes(sub)`: `sub` occurs as a contiguous substring of `s`.
Modelled on the character lists of the two strings. -/
def strIncludes (s sub : String) : Bool :=
  decide (sub.toList <:+: s.toList)

/-- JS `s.toLowerCase()`. The status labels this code compares are ASCII, so
the ASCII `Char.toLower`, mapped over the characters, models it exactly. -/
def jsToLower (s : String) : String :=
  ⟨s.data.map Char.toLower⟩

/-! ## Task-status context (`src/unnamed/part_012`) -/

/-- `TaskStatus` record of `part_012` (lines 6–17). Numeric ids are JS
numbers holding integers; optional fields may be `undefined`. -/
structure TaskStatus where
  taskId : Int
  projectId : Int
  teamId : Int
  url : String
  status : String
  type : Int
  title : Option String := none
  assignee : Option String := none
  duedate : Option String := none
  startdate : Option String := none
  updated : Option String := none
deriving DecidableEq

/-- The "done" test shared by `getProjectProgress` (lines 134–138),
`getTeamProgress` (lines 178–182) and `getNotDoneTasksByTeam`
(lines 227–229) of `part_012`:
`status.toLowerCase() === 'done' || === 'completed' || === 'closed'`. -/
def isDoneStatus (s : String) : Bool :=
  jsToLower s == "done" || jsToLower s == "completed" || jsToLower s == "closed"

/-- The "in progress" test of `getProjectProgress` (lines 140–144) and
`getTeamProgress` (lines 184–188):
`status.toLowerCase().includes('progress') || .includes('developing')
 || === 'in review'`. -/
def isInProgressStatus (s : String) : Bool :=
  strIncludes (jsToLower s) "progress" || strIncludes (jsToLower s) "developing" ||
    jsToLower s == "in review"

/-- Model of JS `Math.round((done / total) * 100)` on natural counts:
round-half-up of `100 * d / t`, i.e. `⌊(100*d/t) + 1/2⌋ = (200*d + t) / (2*t)`. -/
def roundPct (d t : Nat) : Nat :=
  (200 * d + t) / (2 * t)

/-- One step of the `statusBreakdown` accumulation of `part_012`
(lines 150–154): `statusBreakdown[status] = (statusBreakdown[status] || 0) + 1`,
modelled on an association list keyed by the raw status label. -/
def bumpStatus (acc : List (String × Nat)) (st : String) : List (String × Nat) :=
  match acc.find? (fun p => p.1 == st) with
  | some _ => acc.map (fun p => if p.1 == st then (p.1, p.2 + 1) else p)
  | none => acc ++ [(st, 1)]

/-- The `statusBreakdown` map built by the `forEach` loops of
`getProjectProgress` / `getTeamProgress`. -/
def statusBreakdownOf (tasks : List TaskStatus) : List (String × Nat) :=
  tasks.foldl (fun acc t => bumpStatus acc t.status) []

/-- `ProjectProgress` of `part_012` (lines 18–28). -/
structure ProjectProgress where
  projectId : Int
  totalTasks : Nat
  doneTasks : Nat
  inProgressTasks : Nat
  otherStatusTasks : Nat
  progress : Nat
  statusBreakdown : List (String × Nat)
deriving DecidableEq

/-- `TeamProgress` of `part_012` (lines 30–41). -/
structure TeamProgress where
  teamId : Int
  projectId : Int
  totalTasks : Nat
  doneTasks : Nat
  inProgressTasks : Nat
  otherStatusTasks : Nat
  progress : Nat
  statusBreakdown : List (String × Nat)
deriving DecidableEq

/-- `getProjectProgress` of `part_012` (lines 126–165), as a pure function
of the in-memory task list. `otherStatusTasks := total - done - inProgress`
is the source's JS subtraction; the two counting predicates are disjoint
(proved below), so the JS value is non-negative and agrees with this
truncated subtraction. -/
def getProjectProgress (tasks : List TaskStatus) (projectId : Int) :
    Option ProjectProgress :=
  let projectTasks := tasks.filter (fun t => t.projectId == projectId)
  if projectTasks.length == 0 then none
  else
    let totalTasks := projectTasks.length
    let doneTasks := (projectTasks.filter (fun t => isDoneStatus t.status)).length
    let inProgressTasks :=
      (projectTasks.filter (fun t => isInProgressStatus t.status)).length
    let otherStatusTasks := totalTasks - doneTasks - inProgressTasks
    let progress := roundPct doneTasks totalTasks
    some { projectId := projectId, totalTasks := totalTasks,
           doneTasks := doneTasks, inProgressTasks := inProgressTasks,
           otherStatusTasks := otherStatusTasks, progress := progress,
           statusBreakdown := statusBreakdownOf projectTasks }

/-- `getTeamProgress` of `part_012` (lines 168–210). -/
def getTeamProgress (tasks : List TaskStatus) (projectId teamId : Int) :
    Option TeamProgress :=
  let teamTasks :=
    tasks.filter (fun t => t.projectId == projectId && t.teamId == teamId)
  if teamTasks.length == 0 then none
  else
    let totalTasks := teamTasks.length
    let doneTasks := (teamTasks.filter (fun t => isDoneStatus t.status)).length
    let inProgressTasks :=
      (teamTasks.filter (fun t => isInProgressStatus t.status)).length
    let otherStatusTasks := totalTasks - doneTasks - inProgressTasks
    let progress := roundPct doneTasks totalTasks
    some { teamId := teamId, projectId := projectId, totalTasks := totalTasks,
           doneTasks := doneTasks, inProgressTasks := inProgressTasks,
           otherStatusTasks := otherStatusTasks, progress := progress,
           statusBreakdown := statusBreakdownOf teamTasks }

/-- `getTasksByProject` of `part_012` (lines 213–215). -/
def getTasksByProject (tasks : List TaskStatus) (projectId : Int) :
    List TaskStatus :=
  tasks.filter (fun t => t.projectId == projectId)

/-- `getTasksByTeam` of `part_012` (lines 218–220). -/
def getTasksByTeam (tasks : List TaskStatus) (projectId teamId : Int) :
    List TaskStatus :=
  tasks.filter (fun t => t.projectId == projectId && t.teamId == teamId)

/-- `getNotDoneTasksByTeam` of `part_012` (lines 223–231). -/
def getNotDoneTasksByTeam (tasks : List TaskStatus) (projectId teamId : Int) :
    List TaskStatus :=
  tasks.filter (fun t =>
    t.projectId == projectId && t.teamId == teamId && !(isDoneStatus t.status))

/-! ## Project-level status inference (`src/src/app/page.tsx`, lines 67–92) -/

/-- `calculateProjectStatus` of `page.tsx`. Dates are compared as numeric
timestamps (`currentDate > dueDate` on JS `Date`s compares their epoch
values). `taskProgress` is the possibly-`null` result of
`getProjectProgress`; `hasTasks = taskProgress && taskProgress.totalTasks > 0`. -/
def calculateProjectStatus (currentDate dueDate : Int)
    (taskProgress : Option ProjectProgress) : String :=
  match taskProgress with
  | none => "Planning"
  | some tp =>
    if tp.totalTasks == 0 then "Planning"
    else if tp.doneTasks == tp.totalTasks then "Completed"
    else if currentDate > dueDate then "Overdue"
    else "In Progress"

/-! ## Cache layer (`src/src/utils/cache.ts`) -/

/-- `CacheItem<T>` of `cache.ts` (lines 2–6). `timestamp` and `expiresIn`
are JS millisecond numbers, modelled as integers. -/
structure CacheItem (α : Type) where
  data : α
  timestamp : Int
  expiresIn : Int
deriving DecidableEq

/-- The backing `localStorage` keyspace, restricted to this app's typed
entries: a map from key strings to stored `CacheItem`s. -/
def CacheStore (α : Type) : Type :=
  String → Option (CacheItem α)

/-- `CacheManager.set` (cache.ts lines 14–26): stores
`{data, timestamp: Date.now(), expiresIn}` under `key`. `now` is the
injected clock reading (`Date.now()`). -/
def CacheManager.set {α : Type} (store : CacheStore α) (key : String)
    (data : α) (expiresIn now : Int) : CacheStore α :=
  fun k => if k = key then some ⟨data, now, expiresIn⟩ else store k

/-- The default TTL `DEFAULT_CACHE_DURATION = 5 * 60 * 1000` (cache.ts line 9). -/
def CacheManager.DEFAULT_CACHE_DURATION : Int := 5 * 60 * 1000

/-- `CacheManager.remove` (cache.ts lines 62–69): `localStorage.removeItem(key)`. -/
def CacheManager.remove {α : Type} (store : CacheStore α) (key : String) :
    CacheStore α :=
  fun k => if k = key then none else store k

/-- `CacheManager.get` (cache.ts lines 31–57): a miss returns `null`; an
entry with `(now - timestamp) > expiresIn` is expired, removed, and reported
as `null`; otherwise the stored data is returned. Returns the (possibly
evicted-from) store together with the result. -/
def CacheManager.get {α : Type} (store : CacheStore α) (key : String)
    (now : Int) : CacheStore α × Option α :=
  match store key with
  | none => (store, none)
  | some item =>
    if now - item.timestamp > item.expiresIn then
      (CacheManager.remove store key, none)
    else
      (store, some item.data)

/-- `CACHE_KEYS.PROJECTS` (cache.ts line 117). -/
def CACHE_KEYS.PROJECTS : String := "cache_projects"

/-- `CACHE_KEYS.PROJECT_DETAILS` (cache.ts line 118). -/
def CACHE_KEYS.PROJECT_DETAILS (projectId : String) : String :=
  "cache_project_" ++ projectId

/-- `CACHE_KEYS.TEAM_DETAILS` (cache.ts line 119). -/
def CACHE_KEYS.TEAM_DETAILS (teamId projectId : String) : String :=
  "cache_team_" ++ teamId ++ "_" ++ projectId

/-- `CACHE_KEYS.TASK_STATUS` (cache.ts line 120). -/
def CACHE_KEYS.TASK_STATUS : String := "cache_task_status"

/-! ## Cache invalidation on writes (`src/src/services/cachedApiService.ts`) -/

/-- The cache effect of a successful `CachedApiService.addTask`
(cachedApiService.ts lines 151–162): `clearTeamCache(teamId, projectId)`
then `clearProjectCache(projectId)` (lines 129–135), each a
`CacheManager.remove` of the corresponding key. -/
def CachedApiService.addTaskCacheEffect {α : Type} (store : CacheStore α)
    (teamId projectId : String) : CacheStore α :=
  CacheManager.remove
    (CacheManager.remove store (CACHE_KEYS.TEAM_DETAILS teamId projectId))
    (CACHE_KEYS.PROJECT_DETAILS projectId)

/-- The cache effect of a successful `CachedApiService.createProject`
(cachedApiService.ts lines 164–174): `clearProjectsCache()` (lines 125–127). -/
def CachedApiService.createProjectCacheEffect {α : Type}
    (store : CacheStore α) : CacheStore α :=
  CacheManager.remove store CACHE_KEYS.PROJECTS

/-! ## Add-task write path (`src/src/app/api/task/route.ts`) -/

/-- The two locator types of `parseTaskUrl` (external-api.ts line 169). -/
inductive UrlType where
  | jiraTicket
  | rowSheet
deriving DecidableEq

/-- `parseTaskUrl` of `external-api.ts` (lines 169–177); the thrown
`'Unsupported URL type'` is `none`. -/
def parseTaskUrl (url : String) : Option UrlType :=
  if strIncludes url "atlassian.net" || strIncludes url "jira" then
    some .jiraTicket
  else if strIncludes url "docs.google.com/spreadsheets" then
    some .rowSheet
  else
    none

/-- The string rendering of a `type` used in the route's error message
(`Expected ${type}, got ${parsedUrl.type}`). -/
def UrlType.label : UrlType → String
  | .jiraTicket => "jiraTicket"
  | .rowSheet => "rowSheet"

/-- A persisted `Task` row as the add-task route sees it: the
`(teamId, projectId, url)` columns used by the duplicate check and insert. -/
structure TaskRow where
  teamId : Int
  projectId : Int
  url : String
deriving DecidableEq

/-- Outcome of the URL-validation loop of `route.ts` lines 86–129:
the accumulated `tasksToInsert` and `validationErrors`. -/
structure ValidationOutcome where
  tasksToInsert : List TaskRow
  validationErrors : List String
deriving DecidableEq

/-- The duplicate check of `route.ts` lines 102–118: a row with the same
`teamId`, `projectId` and `url` exists in the `Task` table. -/
def taskExists (db : List TaskRow) (teamId projectId : Int) (url : String) :
    Bool :=
  (db.find? (fun r =>
    r.teamId == teamId && r.projectId == projectId && r.url == url)).isSome

/-- The validation loop of `route.ts` lines 86–129, indexed from `i` so the
error messages carry the 1-based position `i + 1` of the offending URL. -/
def validateUrls (db : List TaskRow) (teamId projectId : Int)
    (reqType : UrlType) : List String → Nat → ValidationOutcome
  | [], _ => ⟨[], []⟩
  | url :: rest, i =>
    let restOutcome := validateUrls db teamId projectId reqType rest (i + 1)
    match parseTaskUrl url with
    | none =>
      ⟨restOutcome.tasksToInsert,
       ("URL " ++ toString (i + 1) ++ ": Invalid URL format - " ++ url) ::
         restOutcome.validationErrors⟩
    | some parsedType =>
      if parsedType ≠ reqType then
        ⟨restOutcome.tasksToInsert,
         ("URL " ++ toString (i + 1) ++ ": Type mismatch. Expected " ++
            reqType.label ++ ", got " ++ parsedType.label) ::
           restOutcome.validationErrors⟩
      else if taskExists db teamId projectId url then
        ⟨restOutcome.tasksToInsert,
         ("URL " ++ toString (i + 1) ++ ": Task with this URL already exists") ::
           restOutcome.validationErrors⟩
      else
        ⟨⟨teamId, projectId, url⟩ :: restOutcome.tasksToInsert,
         restOutcome.validationErrors⟩

/-- The possible responses of the route past the validation loop
(`route.ts` lines 131–176). -/
inductive PostTaskResponse where
  | validationError (errors : List String) (validTasks : Nat)
  | noValidTasks
  | success (insertedCount : Nat)
deriving DecidableEq

/-- The add-task handler from the validation loop on (`route.ts`
lines 86–176), given the persisted `Task` rows: returns the response and
the new persisted rows (the `insert` appends `tasksToInsert`). The earlier
team/project/link existence checks (lines 37–83) return before this code
without touching the `Task` table. -/
def postTask (db : List TaskRow) (teamId projectId : Int) (reqType : UrlType)
    (listUrl : List String) : PostTaskResponse × List TaskRow :=
  let vo := validateUrls db teamId projectId reqType listUrl 0
  if vo.validationErrors.length > 0 then
    (.validationError vo.validationErrors vo.tasksToInsert.length, db)
  else if vo.tasksToInsert.length == 0 then
    (.noValidTasks, db)
  else
    (.success vo.tasksToInsert.length, db ++ vo.tasksToInsert)

/-! ## Aggregation endpoint merge (`src/src/app/api/tasks-status/route.ts`) -/

/-- `TaskRecord` of `tasks-status/route.ts` (lines 6–12): a stored task row. -/
structure TaskRecord where
  taskId : String
  url : String
  teamId : String
  projectId : String
  type : Int
deriving DecidableEq

/-- `TaskStatusResponse` of `tasks-status/route.ts` (lines 14–26). -/
structure TaskStatusResponse where
  taskId : String
  projectId : String
  teamId : String
  url : String
  status : String
  type : Int
  title : Option String
  assignee : Option String
  duedate : Option String
  startdate : Option String
  updated : Option String
deriving DecidableEq

/-- `JiraTicketGeneralInfo` of `get-general-info-of-list-jira-ticket.ts`
(lines 2–17). -/
structure JiraTicketGeneralInfo where
  id : String
  ticketName : String
  ticketDescription : Option String
  ticketStatus : String
  ticketPriority : String
  assignee : Option String
  startdate : String
  duedate : String
  updated : String
  ticketKey : String
  projectName : String
  ticketType : String
  url : String
deriving DecidableEq

/-- JS `opt || dflt` on an optional string: `undefined` and the empty
string (both falsy) fall through to the default. -/
def jsOrDefault (v : Option String) (dflt : String) : String :=
  match v with
  | none => dflt
  | some s => if s = "" then dflt else s

/-- One output row of the Jira mapping of `tasks-status/route.ts`
(lines 97–112): the fetched record is looked up by URL
(`jiraTicketsData.find(ticket => ticket.url === task.url)`); a missing
match leaves the optional fields `undefined` and the status `'Unknown'`.
`fmt` is the `formatDateToDateOnly` helper (lines 29–49), whose JS `Date`
parsing is kept abstract. -/
def jiraRow (fmt : String → Option String)
    (jiraTicketsData : List JiraTicketGeneralInfo) (task : TaskRecord) :
    TaskStatusResponse :=
  let jiraData := jiraTicketsData.find? (fun ticket => ticket.url == task.url)
  { taskId := task.taskId
    projectId := task.projectId
    teamId := task.teamId
    url := task.url
    status := jsOrDefault (jiraData.map (·.ticketStatus)) "Unknown"
    type := task.type
    title := jiraData.map (·.ticketName)
    assignee := jiraData.bind (·.assignee)
    duedate := (jiraData.map (·.duedate)).bind fmt
    startdate := (jiraData.map (·.startdate)).bind fmt
    updated := (jiraData.map (·.updated)).bind fmt }

/-- The Jira branch of the merge (`tasks-status/route.ts` lines 96–112):
one response row per stored Jira task, in stored-task order. -/
def mergeJiraTasks (fmt : String → Option String) (jiraTasks : List TaskRecord)
    (jiraTicketsData : List JiraTicketGeneralInfo) : List TaskStatusResponse :=
  jiraTasks.map (jiraRow fmt jiraTicketsData)

/-- A row returned by `getMultipleSheetRowsData`, as the merge consumes it:
its preserved `url`, its dynamic top-level fields (`sheetData[fieldName]`)
and the lower-cased-header `extra` map. -/
structure SheetRowData where
  url : String
  fields : String → Option String
  extra : String → Option String

/-- JS truthiness of a dynamic string field: present and non-empty. -/
def truthyField (f : String → Option String) (name : String) : Option String :=
  match f name with
  | none => none
  | some v => if v = "" then none else some v

/-- `findFieldValue` of `tasks-status/route.ts` (lines 146–168): with no
fetched row, `undefined`; otherwise the first truthy main field among
`fieldNames`, then the first truthy `extra` entry under the lower-cased
field names. -/
def findFieldValue (sheetData : Option SheetRowData) (fieldNames : List String) :
    Option String :=
  match sheetData with
  | none => none
  | some d =>
    match fieldNames.findSome? (fun name => truthyField d.fields name) with
    | some v => some v
    | none => fieldNames.findSome? (fun name => truthyField d.extra (jsToLower name))

/-- One output row of the sheet mapping of `tasks-status/route.ts`
(lines 142–191): the fetched row is looked up by URL
(`sheetRowsData.find(row => row.url === task.url)`); field values come from
`findFieldValue` over the alias lists in the source, the status defaulting
to `'Unknown'`. -/
def sheetRow (fmt : String → Option String) (sheetRowsData : List SheetRowData)
    (task : TaskRecord) : TaskStatusResponse :=
  let sheetData := sheetRowsData.find? (fun row => row.url == task.url)
  { taskId := task.taskId
    projectId := task.projectId
    teamId := task.teamId
    url := task.url
    status := jsOrDefault
      (findFieldValue sheetData
        ["status", "Status", "STATUS", "state", "State", "progress",
         "Progress", "ticketStatus"]) "Unknown"
    type := task.type
    title := findFieldValue sheetData
      ["title", "Title", "TITLE", "summary", "Summary", "name", "Name",
       "task", "Task", "ticketName"]
    assignee := findFieldValue sheetData
      ["assignee", "Assignee", "ASSIGNEE", "assigned", "Assigned", "owner",
       "Owner", "responsible"]
    duedate := (findFieldValue sheetData
      ["duedate", "Duedate", "DueDate", "due_date", "due", "Due", "deadline",
       "Deadline"]).bind fmt
    startdate := (findFieldValue sheetData
      ["startdate", "Startdate", "StartDate", "start_date", "start", "Start",
       "created", "Created"]).bind fmt
    updated := (findFieldValue sheetData
      ["updated", "Updated", "UPDATED", "modified", "Modified", "last_updated",
       "lastUpdated"]).bind fmt }

/-- The sheet branch of the merge (`tasks-status/route.ts` lines 141–191). -/
def mergeSheetTasks (fmt : String → Option String) (sheetTasks : List TaskRecord)
    (sheetRowsData : List SheetRowData) : List TaskStatusResponse :=
  sheetTasks.map (sheetRow fmt sheetRowsData)

/-! ## Batched issue-tracker fetch
(`src/src/lib/get-general-info-of-list-jira-ticket.ts`) -/

/-- The batch loop of `getListGeneralInfoOfJiraTicket` (lines 36–66):
slices of `concurrencyLimit = 5` URLs; each URL goes through
`fetchSingleTicketGeneralInfo`, whose per-item failures (invalid locator,
auth error, not-found, timeout — lines 40–53 and 170–173) all produce
`null`, here `none` of the abstract per-item fetcher `fetch`; the `null`s
are filtered out and the batch results concatenated in order. -/
def jiraBatchLoop (fetch : String → Option JiraTicketGeneralInfo) :
    List String → List JiraTicketGeneralInfo
  | [] => []
  | url :: rest =>
    ((url :: rest).take 5).filterMap fetch ++
      jiraBatchLoop fetch ((url :: rest).drop 5)
termination_by urls => urls.length
decreasing_by simp; omega

/-- `getListGeneralInfoOfJiraTicket` (lines 24–70): empty input short-circuits
to `[]`; otherwise the batch loop runs over the whole URL list. -/
def getListGeneralInfoOfJiraTicket
    (fetch : String → Option JiraTicketGeneralInfo) (listUrl : List String) :
    List JiraTicketGeneralInfo :=
  match listUrl with
  | [] => []
  | url :: rest => jiraBatchLoop fetch (url :: rest)

/-! ## Shared lemmas -/

/-- Unfolding of the done test to propositional equalities. -/
theorem isDoneStatus_iff (s : String) :
    isDoneStatus s = true ↔
      (jsToLower s = "done" ∨ jsToLower s = "completed" ∨ jsToLower s = "closed") := by
  simp [isDoneStatus, or_assoc]

/-- Unfolding of the in-progress test to propositional form. -/
theorem isInProgressStatus_iff (s : String) :
    isInProgressStatus s = true ↔
      ("progress".toList <:+: (jsToLower s).toList ∨
       "developing".toList <:+: (jsToLower s).toList ∨
       jsToLower s = "in review") := by
  simp [isInProgressStatus, strIncludes, or_assoc]

/-- The done and in-progress tests are mutually exclusive: the three done
labels contain neither `progress` nor `developing` and are not `in review`. -/
theorem isDoneStatus_not_inProgress (s : String) (h : isDoneStatus s = true) :
    isInProgressStatus s = false := by
  rcases (isDoneStatus_iff s).mp h with h' | h' | h' <;>
    simp only [isInProgressStatus, h'] <;> decide

/-- Two pointwise-exclusive filters keep at most `l.length` elements between
them. -/
theorem length_filter_add_length_filter_le {α : Type} (l : List α)
    (p q : α → Bool) (h : ∀ x, p x = true → q x = false) :
    (l.filter p).length + (l.filter q).length ≤ l.length := by
  induction l with
  | nil => simp
  | cons a l ih =>
    simp only [List.filter_cons, List.length_cons]
    cases hp : p a
    · cases hq : q a <;> simp <;> omega
    · have hq : q a = false := h a hp
      simp [hq]
      omega

/-- The claim's `round(done/total*100)` as JS `Math.round` computes it:
`⌊x + 1/2⌋` over the exact rational value. -/
def specRound (d t : Nat) : Int :=
  ⌊(d : ℚ) / (t : ℚ) * 100 + 1 / 2⌋

/-- The integer-arithmetic rounding used in the embedding agrees with the
rational `Math.round((d / t) * 100)` whenever the task set is non-empty. -/
theorem roundPct_eq_specRound (d t : Nat) (ht : 0 < t) :
    (roundPct d t : Int) = specRound d t := by
  unfold roundPct specRound
  have ht' : (t : ℚ) ≠ 0 := Nat.cast_ne_zero.mpr ht.ne'
  have h1 : (d : ℚ) / (t : ℚ) * 100 + 1 / 2 =
      (((200 * d + t : ℕ) : ℤ) : ℚ) / ((2 * t : ℕ) : ℚ) := by
    push_cast
    field_simp
    ring
  rw [h1, Rat.floor_intCast_div_natCast]
  exact Int.natCast_div _ _

/-- Rounded percentages of a fraction `d ≤ t` stay at most `100`. -/
theorem roundPct_le_100 (d t : Nat) (hd : d ≤ t) (ht : 0 < t) :
    roundPct d t ≤ 100 := by
  unfold roundPct
  have h2t : 0 < 2 * t := by omega
  have h := (Nat.div_lt_iff_lt_mul h2t).mpr
    (show 200 * d + t < 101 * (2 * t) by omega)
  omega

/-! ## Claim C1 -/

/-- C1 counterexample. The claim says the shared done-classification treats a
label that equals or contains `resolved` as done, and that `"closed "` (with
trailing whitespace) classifies as done. The code compares the lower-cased
label for exact equality with `'done'`/`'completed'`/`'closed'` only, so
`"resolved"` and `"closed "` are not done: a one-task project in status
`"resolved"` counts zero done tasks. -/
theorem statusClassification_spec_counterexample :
    isDoneStatus "resolved" = false ∧ isDoneStatus "closed " = false ∧
    (getProjectProgress
      [{ taskId := 1, projectId := 1, teamId := 1, url := "u",
         status := "resolved", type := 1 }] 1).map (·.doneTasks) = some 0 := by
  decide

/-- C1 (amended): the shared classification used by `getProjectProgress`,
`getTeamProgress` and `getNotDoneTasksByTeam` classifies a task as done iff
its status label, case-insensitively, is exactly `done`, `completed` or
`closed` (equality, not containment; `complete`, `resolved` and labels with
extra whitespace are not done), and as in-progress iff the label,
case-insensitively, contains `progress` or `developing` or equals
`in review`; every other label is other. In particular `DONE` and
`Completed` are done, `In Review` and `developing` are in-progress, and
`To Do` is other; `getNotDoneTasksByTeam` filters by the negation of the
same done test. -/
theorem statusClassification_characterization :
    (∀ s : String,
      (isDoneStatus s = true ↔
        (jsToLower s = "done" ∨ jsToLower s = "completed" ∨
         jsToLower s = "closed")) ∧
      (isInProgressStatus s = true ↔
        ("progress".toList <:+: (jsToLower s).toList ∨
         "developing".toList <:+: (jsToLower s).toList ∨
         jsToLower s = "in review"))) ∧
    isDoneStatus "DONE" = true ∧ isDoneStatus "Completed" = true ∧
    isDoneStatus "closed" = true ∧ isInProgressStatus "In Review" = true ∧
    isInProgressStatus "developing" = true ∧ isDoneStatus "To Do" = false ∧
    isInProgressStatus "To Do" = false ∧
    (∀ (tasks : List TaskStatus) (p t : Int),
      getNotDoneTasksByTeam tasks p t =
        tasks.filter (fun x =>
          x.projectId == p && x.teamId == t && !(isDoneStatus x.status))) :=
  ⟨fun s => ⟨isDoneStatus_iff s, isInProgressStatus_iff s⟩,
   by decide, by decide, by decide, by decide, by decide, by decide, by decide,
   fun tasks p t => rfl⟩

/-! ## Claim C2 -/

/-- Field-level description of a `some` result of `getProjectProgress`. -/
theorem getProjectProgress_some (tasks : List TaskStatus) (p : Int)
    (r : ProjectProgress) (hp : getProjectProgress tasks p = some r) :
    (tasks.filter (fun t => t.projectId == p)) ≠ [] ∧
    r.totalTasks = (tasks.filter (fun t => t.projectId == p)).length ∧
    r.doneTasks = ((tasks.filter (fun t => t.projectId == p)).filter
      (fun t => isDoneStatus t.status)).length ∧
    r.inProgressTasks = ((tasks.filter (fun t => t.projectId == p)).filter
      (fun t => isInProgressStatus t.status)).length ∧
    r.otherStatusTasks = r.totalTasks - r.doneTasks - r.inProgressTasks ∧
    r.progress = roundPct r.doneTasks r.totalTasks := by
  by_cases h : (tasks.filter (fun t => t.projectId == p)).length = 0
  · simp [getProjectProgress, h] at hp
  · simp only [getProjectProgress, h, if_false, beq_iff_eq,
      Option.some.injEq] at hp
    subst hp
    exact ⟨fun hnil => h (by simp [hnil]), rfl, rfl, rfl, rfl, rfl⟩

/-- Field-level description of a `some` result of `getTeamProgress`. -/
theorem getTeamProgress_some (tasks : List TaskStatus) (p tm : Int)
    (r : TeamProgress) (hp : getTeamProgress tasks p tm = some r) :
    (tasks.filter (fun t => t.projectId == p && t.teamId == tm)) ≠ [] ∧
    r.totalTasks =
      (tasks.filter (fun t => t.projectId == p && t.teamId == tm)).length ∧
    r.doneTasks = ((tasks.filter (fun t => t.projectId == p && t.teamId == tm)).filter
      (fun t => isDoneStatus t.status)).length ∧
    r.inProgressTasks =
      ((tasks.filter (fun t => t.projectId == p && t.teamId == tm)).filter
        (fun t => isInProgressStatus t.status)).length ∧
    r.otherStatusTasks = r.totalTasks - r.doneTasks - r.inProgressTasks ∧
    r.progress = roundPct r.doneTasks r.totalTasks := by
  by_cases h :
      (tasks.filter (fun t => t.projectId == p && t.teamId == tm)).length = 0
  · simp [getTeamProgress, h] at hp
  · simp only [getTeamProgress, h, if_false, beq_iff_eq,
      Option.some.injEq] at hp
    subst hp
    exact ⟨fun hnil => h (by simp [hnil]), rfl, rfl, rfl, rfl, rfl⟩

/-- The three counters of a non-empty filtered task list sum to the total,
and its rounded percentage is `Math.round(done/total*100)` and lies in
`[0, 100]`. -/
theorem progressCounters_ok (l : List TaskStatus) (hl : l ≠ []) :
    (l.filter (fun t => isDoneStatus t.status)).length +
      (l.filter (fun t => isInProgressStatus t.status)).length +
      (l.length - (l.filter (fun t => isDoneStatus t.status)).length -
        (l.filter (fun t => isInProgressStatus t.status)).length) = l.length ∧
    ((roundPct (l.filter (fun t => isDoneStatus t.status)).length l.length : Nat) :
        Int) =
      specRound (l.filter (fun t => isDoneStatus t.status)).length l.length ∧
    roundPct (l.filter (fun t => isDoneStatus t.status)).length l.length ≤ 100 := by
  have hdisj := length_filter_add_length_filter_le l
    (fun t => isDoneStatus t.status) (fun t => isInProgressStatus t.status)
    (fun t => isDoneStatus_not_inProgress t.status)
  have hd_le : (l.filter (fun t => isDoneStatus t.status)).length ≤ l.length :=
    List.length_filter_le _ _
  have hpos : 0 < l.length := List.length_pos.mpr hl
  exact ⟨by omega, roundPct_eq_specRound _ _ hpos, roundPct_le_100 _ _ hd_le hpos⟩

/-- C2 (confirmed): whenever `getProjectProgress` (filter by project) or
`getTeamProgress` (filter by project and team) returns a record, that record
satisfies `doneTasks + inProgressTasks + otherStatusTasks = totalTasks`,
`progress = round(doneTasks / totalTasks * 100)` (JS `Math.round` over the
exact fraction), and `0 ≤ progress ≤ 100`. -/
theorem progressInvariants (tasks : List TaskStatus) (p tm : Int)
    (r : ProjectProgress) (r' : TeamProgress)
    (hp : getProjectProgress tasks p = some r)
    (ht : getTeamProgress tasks p tm = some r') :
    (r.doneTasks + r.inProgressTasks + r.otherStatusTasks = r.totalTasks ∧
     (r.progress : Int) = specRound r.doneTasks r.totalTasks ∧
     0 ≤ r.progress ∧ r.progress ≤ 100) ∧
    (r'.doneTasks + r'.inProgressTasks + r'.otherStatusTasks = r'.totalTasks ∧
     (r'.progress : Int) = specRound r'.doneTasks r'.totalTasks ∧
     0 ≤ r'.progress ∧ r'.progress ≤ 100) := by
  obtain ⟨hnil, htot, hd, hip, ho, hpr⟩ := getProjectProgress_some tasks p r hp
  obtain ⟨hnil', htot', hd', hip', ho', hpr'⟩ := getTeamProgress_some tasks p tm r' ht
  obtain ⟨hsum, hround, hle⟩ := progressCounters_ok _ hnil
  obtain ⟨hsum', hround', hle'⟩ := progressCounters_ok _ hnil'
  constructor
  · refine ⟨?_, ?_, Nat.zero_le _, ?_⟩
    · rw [ho, htot, hd, hip]; exact hsum
    · rw [hpr, hd, htot]; exact hround
    · rw [hpr, hd, htot]; exact hle
  · refine ⟨?_, ?_, Nat.zero_le _, ?_⟩
    · rw [ho', htot', hd', hip']; exact hsum'
    · rw [hpr', hd', htot']; exact hround'
    · rw [hpr', hd', htot']; exact hle'

/-- A concrete one-task list exercising C2. -/
def c2Task : TaskStatus :=
  { taskId := 1, projectId := 1, teamId := 2, url := "u", status := "done",
    type := 1 }

/-- The project record `getProjectProgress [c2Task] 1` produces. -/
def c2Proj : ProjectProgress :=
  { projectId := 1, totalTasks := 1, doneTasks := 1, inProgressTasks := 0,
    otherStatusTasks := 0, progress := 100, statusBreakdown := [("done", 1)] }

/-- The team record `getTeamProgress [c2Task] 1 2` produces. -/
def c2Team : TeamProgress :=
  { teamId := 2, projectId := 1, totalTasks := 1, doneTasks := 1,
    inProgressTasks := 0, otherStatusTasks := 0, progress := 100,
    statusBreakdown := [("done", 1)] }

/-- C2 witness: the invariants hold of the concrete records that
`getProjectProgress`/`getTeamProgress` return on a one-task list. -/
theorem progressInvariants_witness :
    (c2Proj.doneTasks + c2Proj.inProgressTasks + c2Proj.otherStatusTasks =
        c2Proj.totalTasks ∧
      (c2Proj.progress : Int) = specRound c2Proj.doneTasks c2Proj.totalTasks ∧
      0 ≤ c2Proj.progress ∧ c2Proj.progress ≤ 100) ∧
    (c2Team.doneTasks + c2Team.inProgressTasks + c2Team.otherStatusTasks =
        c2Team.totalTasks ∧
      (c2Team.progress : Int) = specRound c2Team.doneTasks c2Team.totalTasks ∧
      0 ≤ c2Team.progress ∧ c2Team.progress ≤ 100) :=
  progressInvariants [c2Task] 1 2 c2Proj c2Team (by decide) (by decide)

/-! ## Claim C6 -/

/-- C6 (confirmed): `getProjectProgress` returns `null` exactly when no task
matches the project filter, and `getTeamProgress` returns `null` exactly
when no task matches the project-and-team filter — an empty filtered set
yields `null`, never a zero-progress record. -/
theorem emptyFilter_returns_null (tasks : List TaskStatus) (p tm : Int) :
    (getProjectProgress tasks p = none ↔
      tasks.filter (fun t => t.projectId == p) = []) ∧
    (getTeamProgress tasks p tm = none ↔
      tasks.filter (fun t => t.projectId == p && t.teamId == tm) = []) := by
  constructor
  · by_cases h : (tasks.filter (fun t => t.projectId == p)).length = 0
    · simp [getProjectProgress, h, List.length_eq_zero.mp h]
    · simp [getProjectProgress, h]
      have hne : tasks.filter (fun t => t.projectId == p) ≠ [] :=
        fun hnil => h (by simp [hnil])
      obtain ⟨x, hx⟩ := List.exists_mem_of_ne_nil _ hne
      obtain ⟨hmem, hpred⟩ := List.mem_filter.mp hx
      exact ⟨x, hmem, by simpa using hpred⟩
  · by_cases h :
        (tasks.filter (fun t => t.projectId == p && t.teamId == tm)).length = 0
    · simp [getTeamProgress, h, List.length_eq_zero.mp h]
    · simp [getTeamProgress, h]
      have hne : tasks.filter (fun t => t.projectId == p && t.teamId == tm) ≠ [] :=
        fun hnil => h (by simp [hnil])
      obtain ⟨x, hx⟩ := List.exists_mem_of_ne_nil _ hne
      obtain ⟨hmem, hpred⟩ := List.mem_filter.mp hx
      exact ⟨x, hmem, by simpa using hpred⟩

/-! ## Claim C5 -/

/-- C5 (confirmed): `calculateProjectStatus` classifies a project with no
progress record or zero total tasks as `Planning` regardless of dates; a
non-empty project with all tasks done as `Completed` regardless of date;
otherwise `Overdue` exactly when the current date is past the due date, and
`In Progress` when it is not. -/
theorem calculateProjectStatus_cases (currentDate dueDate : Int)
    (tp : Option ProjectProgress) :
    (∀ r, tp = none ∨ (tp = some r ∧ r.totalTasks = 0) →
      calculateProjectStatus currentDate dueDate tp = "Planning") ∧
    (∀ r, tp = some r → r.totalTasks ≠ 0 → r.doneTasks = r.totalTasks →
      calculateProjectStatus currentDate dueDate tp = "Completed") ∧
    (∀ r, tp = some r → r.totalTasks ≠ 0 → r.doneTasks ≠ r.totalTasks →
      dueDate < currentDate →
      calculateProjectStatus currentDate dueDate tp = "Overdue") ∧
    (∀ r, tp = some r → r.totalTasks ≠ 0 → r.doneTasks ≠ r.totalTasks →
      ¬dueDate < currentDate →
      calculateProjectStatus currentDate dueDate tp = "In Progress") := by
  refine ⟨?_, ?_, ?_, ?_⟩
  · rintro r (h | ⟨h, hz⟩)
    · subst h; rfl
    · subst h; simp [calculateProjectStatus, hz]
  · rintro r h hz hd
    subst h
    simp [calculateProjectStatus, hz, hd]
  · rintro r h hz hd hdue
    subst h
    simp only [calculateProjectStatus, beq_iff_eq, gt_iff_lt]
    rw [if_neg hz, if_neg hd, if_pos hdue]
  · rintro r h hz hd hdue
    subst h
    simp only [calculateProjectStatus, beq_iff_eq, gt_iff_lt]
    rw [if_neg hz, if_neg hd, if_neg hdue]

/-! ## Claim C3 -/

/-- No team-details key collides with the task-status key: every
`cache_team_…` key differs from `"cache_task_status"` at character 7
(`'e'` vs `'a'`). -/
theorem TEAM_DETAILS_ne_TASK_STATUS (teamId projectId : String) :
    CACHE_KEYS.TEAM_DETAILS teamId projectId ≠ CACHE_KEYS.TASK_STATUS := by
  intro h
  have hpre : "cache_team_".data <+: (CACHE_KEYS.TEAM_DETAILS teamId projectId).data :=
    ⟨teamId.data ++ "_".data ++ projectId.data, by
      simp [CACHE_KEYS.TEAM_DETAILS, String.data_append, List.append_assoc]⟩
  rw [h] at hpre
  exact absurd hpre (by decide)

/-- No project-details key collides with the task-status key. -/
theorem PROJECT_DETAILS_ne_TASK_STATUS (projectId : String) :
    CACHE_KEYS.PROJECT_DETAILS projectId ≠ CACHE_KEYS.TASK_STATUS := by
  intro h
  have hpre : "cache_project_".data <+: (CACHE_KEYS.PROJECT_DETAILS projectId).data :=
    ⟨projectId.data, by simp [CACHE_KEYS.PROJECT_DETAILS, String.data_append]⟩
  rw [h] at hpre
  exact absurd hpre (by decide)

/-- A cache holding only the full-task-list entry, used to test C3. -/
def c3Store : CacheStore Nat :=
  fun k => if k = CACHE_KEYS.TASK_STATUS then some ⟨0, 0, 0⟩ else none

/-- C3 counterexample. The claim says a successful `addTask` also removes
the full-task-list entry. It does not: `addTask` only clears the team- and
project-details keys, so a cache holding the task-list entry still holds it
after the invalidation. -/
theorem addTask_keeps_taskStatus_counterexample :
    (CachedApiService.addTaskCacheEffect c3Store "1" "2")
      CACHE_KEYS.TASK_STATUS = some ⟨0, 0, 0⟩ := by
  decide

/-- C3 (amended): after a successful `addTask`, the affected team-details
entry and the affected project-details entry are absent from the cache, but
the full-task-list entry is NOT invalidated — it, like every key other than
those two, is left unchanged. After a successful `createProject`, the
project-list entry is absent and every other key is unchanged. -/
theorem writeInvalidation_cacheEffects {α : Type} (store : CacheStore α)
    (teamId projectId : String) :
    CachedApiService.addTaskCacheEffect store teamId projectId
      (CACHE_KEYS.TEAM_DETAILS teamId projectId) = none ∧
    CachedApiService.addTaskCacheEffect store teamId projectId
      (CACHE_KEYS.PROJECT_DETAILS projectId) = none ∧
    (∀ k, k ≠ CACHE_KEYS.TEAM_DETAILS teamId projectId →
      k ≠ CACHE_KEYS.PROJECT_DETAILS projectId →
      CachedApiService.addTaskCacheEffect store teamId projectId k = store k) ∧
    CachedApiService.addTaskCacheEffect store teamId projectId
      CACHE_KEYS.TASK_STATUS = store CACHE_KEYS.TASK_STATUS ∧
    CachedApiService.createProjectCacheEffect store CACHE_KEYS.PROJECTS = none ∧
    (∀ k, k ≠ CACHE_KEYS.PROJECTS →
      CachedApiService.createProjectCacheEffect store k = store k) := by
  refine ⟨?_, ?_, ?_, ?_, ?_, ?_⟩
  · simp [CachedApiService.addTaskCacheEffect, CacheManager.remove]
  · simp [CachedApiService.addTaskCacheEffect, CacheManager.remove]
  · intro k hk1 hk2
    simp [CachedApiService.addTaskCacheEffect, CacheManager.remove, hk1, hk2]
  · simp [CachedApiService.addTaskCacheEffect, CacheManager.remove,
      (TEAM_DETAILS_ne_TASK_STATUS teamId projectId).symm,
      (PROJECT_DETAILS_ne_TASK_STATUS projectId).symm]
  · simp [CachedApiService.createProjectCacheEffect, CacheManager.remove]
  · intro k hk
    simp [CachedApiService.createProjectCacheEffect, CacheManager.remove, hk]

/-! ## Claim C9 -/

/-- C9 (confirmed): for every key, value and (non-negative) TTL —
immediately after `set(key, v, ttl)` a `get(key)` at the same clock reading
returns `v`; once more than `ttl` milliseconds have elapsed since the set,
`get(key)` returns `null` and evicts the entry; and after `remove(key)`,
`get(key)` returns `null`. -/
theorem cacheRoundTrip {α : Type} (store : CacheStore α) (key : String)
    (v : α) (ttl now later : Int) (httl : 0 ≤ ttl)
    (hlater : later - now > ttl) :
    (CacheManager.get (CacheManager.set store key v ttl now) key now).2 =
      some v ∧
    (CacheManager.get (CacheManager.set store key v ttl now) key later).2 =
      none ∧
    (CacheManager.get (CacheManager.set store key v ttl now) key later).1 key =
      none ∧
    (CacheManager.get (CacheManager.remove store key) key later).2 = none := by
  refine ⟨?_, ?_, ?_, ?_⟩
  · have h0 : ¬ttl < 0 := by omega
    simp [CacheManager.get, CacheManager.set, h0]
  · simp [CacheManager.get, CacheManager.set, hlater]
  · simp [CacheManager.get, CacheManager.set, CacheManager.remove, hlater]
  · simp [CacheManager.get, CacheManager.remove]

/-- C9 witness: the round-trip at a concrete store, key, value, TTL and
clock readings (set at 0 with TTL 1000, read back at 0 and at 1001). -/
theorem cacheRoundTrip_witness :
    (CacheManager.get
      (CacheManager.set (fun _ => none) "cache_projects" 7 1000 0)
      "cache_projects" 0).2 = some 7 ∧
    (CacheManager.get
      (CacheManager.set (fun _ => none) "cache_projects" 7 1000 0)
      "cache_projects" 1001).2 = none ∧
    (CacheManager.get
      (CacheManager.set (fun _ => none) "cache_projects" 7 1000 0)
      "cache_projects" 1001).1 "cache_projects" = none ∧
    (CacheManager.get
      (CacheManager.remove (fun _ => (none : Option (CacheItem Nat)))
        "cache_projects") "cache_projects" 1001).2 = none :=
  cacheRoundTrip (fun _ => none) "cache_projects" 7 1000 0 1001
    (by decide) (by decide)

/-! ## Claims C7 and C10: the add-task validation loop -/

/-- A URL the validation loop of `route.ts` rejects: malformed locator,
source-type mismatch, or duplicate of an existing `(teamId, projectId, url)`. -/
def urlFails (db : List TaskRow) (teamId projectId : Int) (reqType : UrlType)
    (url : String) : Bool :=
  match parseTaskUrl url with
  | none => true
  | some t => t ≠ reqType || taskExists db teamId projectId url

/-- If some URL of the batch fails validation, the loop accumulates at least
one error message. -/
theorem validateUrls_errors_ne_nil (db : List TaskRow) (teamId projectId : Int)
    (reqType : UrlType) :
    ∀ (urls : List String) (i : Nat) (u : String), u ∈ urls →
      urlFails db teamId projectId reqType u = true →
      (validateUrls db teamId projectId reqType urls i).validationErrors ≠ [] := by
  intro urls
  induction urls with
  | nil => intro i u hu; exact absurd hu (List.not_mem_nil u)
  | cons a rest ih =>
    intro i u hu hfail
    rcases List.mem_cons.mp hu with rfl | hmem
    · unfold urlFails at hfail
      unfold validateUrls
      cases hp : parseTaskUrl u with
      | none => simp
      | some t =>
        rw [hp] at hfail
        by_cases hty : t ≠ reqType
        · simp [hty]
        · have ht : t = reqType := not_not.mp hty
          subst ht
          simp at hfail
          simp [hfail]
    · have hrest := ih (i + 1) u hmem hfail
      unfold validateUrls
      cases hp : parseTaskUrl a with
      | none => simp
      | some t =>
        by_cases hty : t ≠ reqType
        · simp [hty]
        · by_cases hex : taskExists db teamId projectId a
          · simp [hty, hex]
          · simp [hty, hex, hrest]

/-- If some URL of a request fails validation, the handler answers with the
accumulated validation errors and leaves the `Task` rows untouched. -/
theorem postTask_fail_eq (db : List TaskRow) (teamId projectId : Int)
    (reqType : UrlType) (urls : List String) (u : String) (hu : u ∈ urls)
    (hfail : urlFails db teamId projectId reqType u = true) :
    postTask db teamId projectId reqType urls =
      (.validationError
        (validateUrls db teamId projectId reqType urls 0).validationErrors
        (validateUrls db teamId projectId reqType urls 0).tasksToInsert.length,
       db) := by
  have hne := validateUrls_errors_ne_nil db teamId projectId reqType urls 0 u hu hfail
  have hpos : 0 < (validateUrls db teamId projectId reqType urls 0).validationErrors.length :=
    List.length_pos.mpr hne
  unfold postTask
  rw [if_pos hpos]

/-- C7 (confirmed): a request containing a URL whose
`(teamId, projectId, url)` tuple matches an already-stored task is answered
with a validation error, and the persisted task set is unchanged. -/
theorem duplicateTask_rejected (db : List TaskRow) (teamId projectId : Int)
    (reqType : UrlType) (urls : List String) (u : String) (hu : u ∈ urls)
    (hdup : taskExists db teamId projectId u = true) :
    (∃ errs n, (postTask db teamId projectId reqType urls).1 =
      .validationError errs n) ∧
    (postTask db teamId projectId reqType urls).2 = db := by
  have hfail : urlFails db teamId projectId reqType u = true := by
    unfold urlFails
    cases hp : parseTaskUrl u with
    | none => rfl
    | some t => simp [hdup]
  rw [postTask_fail_eq db teamId projectId reqType urls u hu hfail]
  exact ⟨⟨_, _, rfl⟩, rfl⟩

/-- A stored task row used by the C7 witness. -/
def c7Row : TaskRow :=
  { teamId := 1, projectId := 2, url := "https://a.atlassian.net/browse/K-1" }

/-- C7 witness: re-adding the already-stored locator is rejected and the
stored rows are unchanged. -/
theorem duplicateTask_rejected_witness :
    (∃ errs n,
      (postTask [c7Row] 1 2 .jiraTicket ["https://a.atlassian.net/browse/K-1"]).1 =
        .validationError errs n) ∧
    (postTask [c7Row] 1 2 .jiraTicket ["https://a.atlassian.net/browse/K-1"]).2 =
      [c7Row] :=
  duplicateTask_rejected [c7Row] 1 2 .jiraTicket
    ["https://a.atlassian.net/browse/K-1"] "https://a.atlassian.net/browse/K-1"
    (by decide) (by decide)

/-- C10 (confirmed): the add-task write path is all-or-nothing — if any URL
in the batch fails validation (malformed, type mismatch, or duplicate), the
request returns the validation-error response listing the accumulated
failures and no task at all is inserted, the URLs that validated included. -/
theorem addTask_allOrNothing (db : List TaskRow) (teamId projectId : Int)
    (reqType : UrlType) (urls : List String) (u : String) (hu : u ∈ urls)
    (hfail : urlFails db teamId projectId reqType u = true) :
    postTask db teamId projectId reqType urls =
      (.validationError
        (validateUrls db teamId projectId reqType urls 0).validationErrors
        (validateUrls db teamId projectId reqType urls 0).tasksToInsert.length,
       db) :=
  postTask_fail_eq db teamId projectId reqType urls u hu hfail

/-- C10 witness: a batch of one well-formed new locator and one malformed
locator inserts nothing and reports the failure. -/
theorem addTask_allOrNothing_witness :
    postTask [] 1 2 .jiraTicket
        ["https://a.atlassian.net/browse/K-1", "not-a-url"] =
      (.validationError
        (validateUrls [] 1 2 .jiraTicket
          ["https://a.atlassian.net/browse/K-1", "not-a-url"] 0).validationErrors
        (validateUrls [] 1 2 .jiraTicket
          ["https://a.atlassian.net/browse/K-1", "not-a-url"] 0).tasksToInsert.length,
       []) :=
  addTask_allOrNothing [] 1 2 .jiraTicket
    ["https://a.atlassian.net/browse/K-1", "not-a-url"] "not-a-url"
    (by decide) (by decide)

/-! ## Claim C8 -/

/-- The 5-at-a-time batch loop computes exactly the `filterMap` of the
per-item fetcher over the whole URL list: batch boundaries do not affect
the result. -/
theorem jiraBatchLoop_eq_filterMap (fetch : String → Option JiraTicketGeneralInfo) :
    ∀ (n : Nat) (urls : List String), urls.length ≤ n →
      jiraBatchLoop fetch urls = urls.filterMap fetch := by
  intro n
  induction n with
  | zero =>
    intro urls h
    rw [List.length_eq_zero.mp (Nat.le_zero.mp h)]
    rw [jiraBatchLoop]
    rfl
  | succ n ih =>
    intro urls h
    match urls with
    | [] => rw [jiraBatchLoop]; rfl
    | u :: us =>
      rw [jiraBatchLoop]
      rw [ih ((u :: us).drop 5) (by simp at h ⊢; omega)]
      conv_rhs => rw [← List.take_append_drop 5 (u :: us)]
      rw [List.filterMap_append]

/-- C8 (confirmed): the batched issue-tracker fetch is total (a per-item
failure is a `none` from the per-item fetcher, never an exception), returns
at most one record per input locator, and a failing item only loses its own
record: every other locator whose fetch succeeds still contributes its
record — concretely, with three locators of which the second is unreachable,
the first and third records both appear. -/
theorem jiraBatchFetch_failureIsolation
    (fetch : String → Option JiraTicketGeneralInfo) (urls : List String)
    (u : String) (r : JiraTicketGeneralInfo) (hu : u ∈ urls)
    (hr : fetch u = some r) :
    getListGeneralInfoOfJiraTicket fetch urls = urls.filterMap fetch ∧
    (getListGeneralInfoOfJiraTicket fetch urls).length ≤ urls.length ∧
    r ∈ getListGeneralInfoOfJiraTicket fetch urls := by
  have heq : getListGeneralInfoOfJiraTicket fetch urls = urls.filterMap fetch := by
    match urls with
    | [] => rfl
    | a :: rest =>
      exact jiraBatchLoop_eq_filterMap fetch (a :: rest).length (a :: rest)
        le_rfl
  refine ⟨heq, ?_, ?_⟩
  · rw [heq]; exact List.length_filterMap_le fetch urls
  · rw [heq]; exact List.mem_filterMap.mpr ⟨u, hu, hr⟩

/-- Three concrete fetched records for the C8 witness. -/
def c8Info (i : Nat) : JiraTicketGeneralInfo :=
  { id := toString i, ticketName := "t" ++ toString i, ticketDescription := none,
    ticketStatus := "Done", ticketPriority := "None", assignee := none,
    startdate := "", duedate := "", updated := "", ticketKey := "K-" ++ toString i,
    projectName := "P", ticketType := "Task", url := "u" ++ toString i }

/-- The C8 scenario's per-item fetcher: locators `u1` and `u3` succeed, the
unreachable `u2` fails. -/
def c8Fetch (url : String) : Option JiraTicketGeneralInfo :=
  if url = "u1" then some (c8Info 1)
  else if url = "u3" then some (c8Info 3)
  else none

/-- C8 witness: with three locators whose second is unreachable, the first
locator's record is not omitted (and, by the same theorem's equation, the
result is exactly the two successful records). -/
theorem jiraBatchFetch_failureIsolation_witness :
    getListGeneralInfoOfJiraTicket c8Fetch ["u1", "u2", "u3"] =
      ["u1", "u2", "u3"].filterMap c8Fetch ∧
    (getListGeneralInfoOfJiraTicket c8Fetch ["u1", "u2", "u3"]).length ≤ 3 ∧
    c8Info 1 ∈ getListGeneralInfoOfJiraTicket c8Fetch ["u1", "u2", "u3"] :=
  jiraBatchFetch_failureIsolation c8Fetch ["u1", "u2", "u3"] "u1" (c8Info 1)
    (by decide) (by decide)

/-! ## Claim C4 -/

/-- `find?` hits the unique element satisfying `p`, wherever it sits. -/
theorem find?_eq_of_unique {α : Type} (p : α → Bool) (l : List α) (f : α)
    (hf : f ∈ l) (hpf : p f = true)
    (huniq : ∀ x ∈ l, ∀ y ∈ l, p x = true → p y = true → x = y) :
    l.find? p = some f := by
  cases hfind : l.find? p with
  | none => exact absurd hpf (by simpa using List.find?_eq_none.mp hfind f hf)
  | some g =>
    have hg : g ∈ l := List.mem_of_find?_eq_some hfind
    have hpg : p g = true := List.find?_some hfind
    rw [huniq g hg f hf hpg hpf]

/-- When at most one element satisfies `p`, `find?` does not depend on the
order of the list. -/
theorem find?_perm_of_unique {α : Type} (p : α → Bool) {l l' : List α}
    (hperm : l.Perm l')
    (huniq : ∀ x ∈ l, ∀ y ∈ l, p x = true → p y = true → x = y) :
    l.find? p = l'.find? p := by
  cases hf : l.find? p with
  | none =>
    have hnone := List.find?_eq_none.mp hf
    symm
    exact List.find?_eq_none.mpr fun x hx => hnone x (hperm.symm.subset hx)
  | some a =>
    have ha : a ∈ l := List.mem_of_find?_eq_some hf
    have hpa : p a = true := List.find?_some hf
    symm
    exact find?_eq_of_unique p l' a (hperm.subset ha) hpa
      fun x hx y hy hpx hpy =>
        huniq x (hperm.symm.subset hx) y (hperm.symm.subset hy) hpx hpy

/-- C4 (confirmed): the aggregation endpoint merges fetcher results onto the
stored task rows by locator value, for both source types. Each output row is
the row function of its stored task; a task with no matching fetched record
gets status `Unknown` and empty optional fields; a task whose locator
matches a (unique) fetched record takes status/title/assignee/date fields
from that record; and when fetched URLs are unique, the result does not
depend on the order of the fetched list. -/
theorem tasksStatusMerge_by_locator (fmt : String → Option String)
    (task : TaskRecord) (jiraData : List JiraTicketGeneralInfo)
    (sheetData : List SheetRowData) :
    (∀ tasks, mergeJiraTasks fmt tasks jiraData =
      tasks.map (jiraRow fmt jiraData)) ∧
    (∀ tasks, mergeSheetTasks fmt tasks sheetData =
      tasks.map (sheetRow fmt sheetData)) ∧
    ((∀ f ∈ jiraData, f.url ≠ task.url) →
      jiraRow fmt jiraData task =
        { taskId := task.taskId, projectId := task.projectId,
          teamId := task.teamId, url := task.url, status := "Unknown",
          type := task.type, title := none, assignee := none, duedate := none,
          startdate := none, updated := none }) ∧
    ((∀ d ∈ sheetData, d.url ≠ task.url) →
      sheetRow fmt sheetData task =
        { taskId := task.taskId, projectId := task.projectId,
          teamId := task.teamId, url := task.url, status := "Unknown",
          type := task.type, title := none, assignee := none, duedate := none,
          startdate := none, updated := none }) ∧
    (∀ f ∈ jiraData, f.url = task.url →
      (∀ g ∈ jiraData, g.url = task.url → g = f) →
      jiraRow fmt jiraData task =
        { taskId := task.taskId, projectId := task.projectId,
          teamId := task.teamId, url := task.url,
          status := jsOrDefault (some f.ticketStatus) "Unknown",
          type := task.type, title := some f.ticketName,
          assignee := f.assignee, duedate := fmt f.duedate,
          startdate := fmt f.startdate, updated := fmt f.updated }) ∧
    (∀ d ∈ sheetData, d.url = task.url →
      (∀ e ∈ sheetData, e.url = task.url → e = d) →
      sheetRow fmt sheetData task = sheetRow fmt [d] task) ∧
    (∀ jira2, jiraData.Perm jira2 →
      (∀ x ∈ jiraData, ∀ y ∈ jiraData,
        x.url = task.url → y.url = task.url → x = y) →
      jiraRow fmt jiraData task = jiraRow fmt jira2 task) ∧
    (∀ sheet2, sheetData.Perm sheet2 →
      (∀ x ∈ sheetData, ∀ y ∈ sheetData,
        x.url = task.url → y.url = task.url → x = y) →
      sheetRow fmt sheetData task = sheetRow fmt sheet2 task) := by
  refine ⟨fun tasks => rfl, fun tasks => rfl, ?_, ?_, ?_, ?_, ?_, ?_⟩
  · intro hnone
    have hfind : jiraData.find? (fun ticket => ticket.url == task.url) = none :=
      List.find?_eq_none.mpr fun x hx => by simpa using hnone x hx
    simp [jiraRow, hfind, jsOrDefault]
  · intro hnone
    have hfind : sheetData.find? (fun row => row.url == task.url) = none :=
      List.find?_eq_none.mpr fun x hx => by simpa using hnone x hx
    simp [sheetRow, hfind, findFieldValue, jsOrDefault]
  · intro f hf hurl huniq
    have hfind : jiraData.find? (fun ticket => ticket.url == task.url) = some f :=
      find?_eq_of_unique _ jiraData f hf (by simpa using hurl)
        fun x hx y hy hpx hpy =>
          (huniq x hx (by simpa using hpx)).trans
            (huniq y hy (by simpa using hpy)).symm
    simp [jiraRow, hfind]
  · intro d hd hurl huniq
    have hfind : sheetData.find? (fun row => row.url == task.url) = some d :=
      find?_eq_of_unique _ sheetData d hd (by simpa using hurl)
        fun x hx y hy hpx hpy =>
          (huniq x hx (by simpa using hpx)).trans
            (huniq y hy (by simpa using hpy)).symm
    have hfind1 : [d].find? (fun row => row.url == task.url) = some d := by
      simp [List.find?, hurl]
    simp only [sheetRow, hfind, hfind1]
  · intro jira2 hperm huniq
    have hfind :
        jiraData.find? (fun ticket => ticket.url == task.url) =
          jira2.find? (fun ticket => ticket.url == task.url) :=
      find?_perm_of_unique _ hperm fun x hx y hy hpx hpy =>
        huniq x hx y hy (by simpa using hpx) (by simpa using hpy)
    simp only [jiraRow, hfind]
  · intro sheet2 hperm huniq
    have hfind :
        sheetData.find? (fun row => row.url == task.url) =
          sheet2.find? (fun row => row.url == task.url) :=
      find?_perm_of_unique _ hperm fun x hx y hy hpx hpy =>
        huniq x hx y hy (by simpa using hpx) (by simpa using hpy)
    simp only [sheetRow, hfind]

/-- C3 witness: the concrete effects on the one-entry store. -/
theorem writeInvalidation_cacheEffects_witness :
    CachedApiService.addTaskCacheEffect c3Store "1" "2"
      (CACHE_KEYS.TEAM_DETAILS "1" "2") = none ∧
    CachedApiService.addTaskCacheEffect c3Store "1" "2"
      (CACHE_KEYS.PROJECT_DETAILS "2") = none ∧
    CachedApiService.addTaskCacheEffect c3Store "1" "2"
      CACHE_KEYS.TASK_STATUS = c3Store CACHE_KEYS.TASK_STATUS ∧
    CachedApiService.createProjectCacheEffect c3Store CACHE_KEYS.PROJECTS =
      none :=
  ⟨(writeInvalidation_cacheEffects c3Store "1" "2").1,
   (writeInvalidation_cacheEffects c3Store "1" "2").2.1,
   (writeInvalidation_cacheEffects c3Store "1" "2").2.2.2.1,
   (writeInvalidation_cacheEffects c3Store "1" "2").2.2.2.2.1⟩

/-- A progress record with all five tasks done, for the C5 witness. -/
def c5Done : ProjectProgress :=
  { projectId := 1, totalTasks := 5, doneTasks := 5, inProgressTasks := 0,
    otherStatusTasks := 0, progress := 100, statusBreakdown := [] }

/-- A progress record with three of five tasks done, for the C5 witness. -/
def c5Part : ProjectProgress :=
  { projectId := 1, totalTasks := 5, doneTasks := 3, inProgressTasks := 1,
    otherStatusTasks := 1, progress := 60, statusBreakdown := [] }

/-- C5 witness: the four concrete classifications (no record → Planning;
5/5 done → Completed even past due; 3/5 done past due → Overdue; 3/5 done
before due → In Progress). -/
theorem calculateProjectStatus_cases_witness :
    calculateProjectStatus 10 5 none = "Planning" ∧
    calculateProjectStatus 10 5 (some c5Done) = "Completed" ∧
    calculateProjectStatus 10 5 (some c5Part) = "Overdue" ∧
    calculateProjectStatus 0 5 (some c5Part) = "In Progress" :=
  ⟨(calculateProjectStatus_cases 10 5 none).1 c5Part (Or.inl rfl),
   (calculateProjectStatus_cases 10 5 (some c5Done)).2.1 c5Done rfl
     (by decide) (by decide),
   (calculateProjectStatus_cases 10 5 (some c5Part)).2.2.1 c5Part rfl
     (by decide) (by decide) (by decide),
   (calculateProjectStatus_cases 0 5 (some c5Part)).2.2.2 c5Part rfl
     (by decide) (by decide) (by decide)⟩

/-- A stored task row whose locator is `u1`, for the C4 witness. -/
def c4Task : TaskRecord :=
  { taskId := "1", url := "u1", teamId := "t", projectId := "p", type := 1 }

/-- C4 witness: with one fetched record whose preserved URL is the task's
locator, the merged row takes its status/title/assignee/date fields from
that record; with no fetched records, it gets status `Unknown`. -/
theorem tasksStatusMerge_by_locator_witness :
    jiraRow some [c8Info 1] c4Task =
      { taskId := c4Task.taskId, projectId := c4Task.projectId,
        teamId := c4Task.teamId, url := c4Task.url,
        status := jsOrDefault (some (c8Info 1).ticketStatus) "Unknown",
        type := c4Task.type, title := some (c8Info 1).ticketName,
        assignee := (c8Info 1).assignee, duedate := some (c8Info 1).duedate,
        startdate := some (c8Info 1).startdate,
        updated := some (c8Info 1).updated } ∧
    jiraRow some [] c4Task =
      { taskId := c4Task.taskId, projectId := c4Task.projectId,
        teamId := c4Task.teamId, url := c4Task.url, status := "Unknown",
        type := c4Task.type, title := none, assignee := none, duedate := none,
        startdate := none, updated := none } :=
  ⟨(tasksStatusMerge_by_locator some c4Task [c8Info 1] []).2.2.2.2.1
     (c8Info 1) (by decide) (by decide) (by decide),
   (tasksStatusMerge_by_locator some c4Task [] []).2.2.1
     (by simp)⟩
